import Mathlib

/-!
Verification development for the Offer-Scanner repository.

The definitions below are a shallow embedding of the TypeScript source:
* the offer data model (`src/types.ts`),
* the feed filter pipeline (`src/components/Toaster.tsx`, `filteredOffers`,
  `getDistance`, `getOfferTitle`),
* the two-tier TTL cache and the geocoding wrappers
  (`src/services/geminiService.ts`).

Modelling conventions:
* JS numbers used for coordinates/trigonometry are modelled as `ℝ`;
  timestamps (`Date.now()`, expiries) as `Int` (milliseconds);
* `Date` values compared with zeroed time-of-day are modelled as day
  numbers (days since 1970-01-01, proleptic Gregorian), including the
  ECMAScript `new Date(y, m, d)` argument normalization and the
  two-digit-year adjustment;
* the in-memory `Map` and `localStorage` are modelled as association
  lists keyed by strings; the JSON round-trip through `localStorage`
  is modelled as the identity on typed entries;
* asynchronous calls to the external Gemini service are modelled by an
  explicit response argument (`Except Unit _`, `.error` covering both a
  thrown error and an unparsable response body).
-/

namespace OfferScanner

/-! ### Data model (src/types.ts) -/

inductive OfferType
  | job
  | service
  | product
deriving DecidableEq

inductive SalaryType
  | perHour
  | perMonth
  | perProject
deriving DecidableEq

inductive PriceType
  | perHour
  | perProject
  | fixed
deriving DecidableEq

structure Location where
  address : String
  lat : ℝ
  lng : ℝ

/-- A filter center point (`filterCenterPoint` prop of `Feed`): `{lat, lng}`. -/
structure LatLng where
  lat : ℝ
  lng : ℝ

/-- The type-specific part of the `Offer` discriminated union
(`JobOffer` / `ServiceOffer` / `ProductOffer` minus the `BaseOffer` fields). -/
inductive OfferDetails
  | job (jobTitle company : String) (responsibilities skills : List String)
      (salary : Option String) (salaryType : Option SalaryType)
      (phone email : Option String)
  | service (serviceName : String) (provider price : Option String)
      (priceType : Option PriceType) (phone email : Option String)
  | product (productName : String) (brand : Option String) (price : String)
      (condition phone email : Option String)

/-- The `BaseOffer` fields plus the discriminated part. -/
structure Offer where
  id : String
  scannedAt : String
  summary : String
  location : Option Location
  additionalDetails : Option String
  expiresAt : Option String
  applicantCount : Nat
  details : OfferDetails

/-- The `type` discriminant of an offer. -/
def Offer.type (o : Offer) : OfferType :=
  match o.details with
  | .job .. => .job
  | .service .. => .service
  | .product .. => .product

/-! ### JS `parseInt(s, 10)` -/

/-- Whitespace characters skipped by `parseInt` (ASCII part). -/
def jsIsWhitespace (c : Char) : Bool :=
  c == ' ' || c == '\t' || c == '\n' || c == '\r' ||
    c == Char.ofNat 11 || c == Char.ofNat 12

/-- Value of a (non-empty) list of decimal digits. -/
def jsDigitsVal (cs : List Char) : Nat :=
  cs.foldl (fun n c => 10 * n + (c.toNat - '0'.toNat)) 0

/-- Tail of `parseInt`: longest decimal-digit prefix; `none` encodes `NaN`. -/
def jsParseIntDigits (sign : Int) (cs : List Char) : Option Int :=
  let digits := cs.takeWhile Char.isDigit
  if digits.isEmpty then none else some (sign * (jsDigitsVal digits : Int))

/-- JS `parseInt(s, 10)`: skip whitespace, optional sign, longest digit prefix;
`none` encodes `NaN`. -/
def jsParseInt10 (s : String) : Option Int :=
  match s.toList.dropWhile jsIsWhitespace with
  | '+' :: rest => jsParseIntDigits 1 rest
  | '-' :: rest => jsParseIntDigits (-1) rest
  | cs => jsParseIntDigits 1 cs

/-! ### JS string primitives

`String.prototype.split`, `trim`, `toLowerCase` are modelled by
structurally-recursive functions on the character list (Lean's own
`String.splitOn`/`trim`/`toLower` agree on the inputs that matter but do
not reduce definitionally, which the proofs below rely on). -/

/-- Split a character list on a separator character; like JS
`split`, it yields `[[]]` on the empty input and keeps empty pieces. -/
def splitOnChar (sep : Char) : List Char → List (List Char)
  | [] => [[]]
  | c :: rest =>
    let r := splitOnChar sep rest
    if c = sep then [] :: r
    else
      match r with
      | [] => [[c]]
      | h :: t => (c :: h) :: t

/-- JS `s.split('-')`. -/
def jsSplit (s : String) : List String :=
  (splitOnChar '-' s.toList).map fun cs => ⟨cs⟩

/-- JS `s.trim()`: strip leading and trailing whitespace. -/
def jsTrim (s : String) : String :=
  ⟨((s.toList.dropWhile jsIsWhitespace).reverse.dropWhile jsIsWhitespace).reverse⟩

/-- JS `s.toLowerCase()` (ASCII case mapping). -/
def jsToLower (s : String) : String :=
  ⟨s.toList.map Char.toLower⟩

/-! ### JS `new Date(year, month, day)` as a day number

`filteredOffers` compares `new Date(year, month, day)` against `today`
(midnight); both are determined by their calendar day, so we model them
as day numbers (days since 1970-01-01). -/

/-- Days since 1970-01-01 of the proleptic-Gregorian date `(y, m, d)`,
`m ∈ [1,12]` (Howard Hinnant's `days_from_civil`). -/
def daysFromCivil (y m d : Int) : Int :=
  let y' := if m ≤ 2 then y - 1 else y
  let era := Int.fdiv y' 400
  let yoe := y' - era * 400
  let mp := if m > 2 then m - 3 else m + 9
  let doy := Int.fdiv (153 * mp + 2) 5 + d - 1
  let doe := yoe * 365 + Int.fdiv yoe 4 - Int.fdiv yoe 100 + doy
  era * 146097 + doe - 719468

/-- ECMAScript `MakeDay` for `new Date(year, month, date)` (local midnight):
two-digit years map to 19xx, `month` (0-based, any integer) is normalized
into the year, and `date` may over/underflow the month. -/
def jsMakeDay (year month date : Int) : Int :=
  let yr := if 0 ≤ year ∧ year ≤ 99 then 1900 + year else year
  let ym := yr + Int.fdiv month 12
  let mn := Int.emod month 12
  daysFromCivil ym (mn + 1) 1 + (date - 1)

/-- ECMAScript `TimeClip`: a Date whose time value exceeds ±8.64e15 ms
(±100,000,000 days) is an invalid Date, and every relational comparison
against an invalid Date (`NaN`) is false. -/
def jsDateInRange (day : Int) : Bool :=
  decide (-100000000 ≤ day ∧ day ≤ 100000000)

/-! ### Expiry stage (Toaster.tsx, `activeOffers` inside `filteredOffers`) -/

/-- The keep-predicate of the expiry stage: keep when `expiresAt` is absent
or empty (JS falsy), does not split on `-` into exactly 3 parts, or has a
non-numeric part; otherwise keep iff the parsed date is ≥ `today`
(`today` is a day number). -/
def expiryKeep (today : Int) (o : Offer) : Bool :=
  match o.expiresAt with
  | none => true
  | some s =>
    if s = "" then true
    else
      match jsSplit s with
      | [p0, p1, p2] =>
        match jsParseInt10 p0, jsParseInt10 p1, jsParseInt10 p2 with
        | some year, some m1, some day =>
          -- month = parseInt(parts[1], 10) - 1 (0-indexed);
          -- an out-of-range Date is invalid and `invalid >= today` is false
          jsDateInRange (jsMakeDay year (m1 - 1) day) &&
            decide (jsMakeDay year (m1 - 1) day ≥ today)
        | _, _, _ => true
      | _ => true

/-- The `offers.filter(...)` call producing `activeOffers`. -/
def expiryStage (today : Int) (offers : List Offer) : List Offer :=
  offers.filter (expiryKeep today)

/-! ### Haversine distance (Toaster.tsx, `getDistance`) -/

/-- JS `Math.atan2(y, x)` over the reals (signed zeros collapse to `0`). -/
noncomputable def jsAtan2 (y x : ℝ) : ℝ :=
  if 0 < x then Real.arctan (y / x)
  else if x < 0 then
    (if 0 ≤ y then Real.arctan (y / x) + Real.pi else Real.arctan (y / x) - Real.pi)
  else if 0 < y then Real.pi / 2
  else if y < 0 then -(Real.pi / 2)
  else 0

/-- The intermediate value `a` of the haversine formula:
`sin²(dLat/2) + cos(lat1)·cos(lat2)·sin²(dLon/2)` (angles in radians). -/
noncomputable def haversineA (lat1 lon1 lat2 lon2 : ℝ) : ℝ :=
  Real.sin ((lat2 - lat1) * (Real.pi / 180) / 2) *
      Real.sin ((lat2 - lat1) * (Real.pi / 180) / 2) +
    Real.cos (lat1 * (Real.pi / 180)) * Real.cos (lat2 * (Real.pi / 180)) *
      Real.sin ((lon2 - lon1) * (Real.pi / 180) / 2) *
      Real.sin ((lon2 - lon1) * (Real.pi / 180) / 2)

/-- The `getDistance` function: haversine great-circle distance in km, Earth radius 6371,
`c = 2 * atan2(√a, √(1-a))`. -/
noncomputable def getDistance (lat1 lon1 lat2 lon2 : ℝ) : ℝ :=
  6371 * (2 * jsAtan2 (Real.sqrt (haversineA lat1 lon1 lat2 lon2))
    (Real.sqrt (1 - haversineA lat1 lon1 lat2 lon2)))

/-! ### Remaining filter stages (Toaster.tsx, `filteredOffers`) -/

/-- The `getOfferTitle` function: the display title by offer type. -/
def getOfferTitle (o : Offer) : String :=
  match o.details with
  | .job jobTitle .. => jobTitle
  | .service serviceName .. => serviceName
  | .product productName .. => productName

/-- JS `String.prototype.includes`: substring containment. -/
def strIncludes (s pat : String) : Bool :=
  decide (pat.toList <:+: s.toList)

/-- The `otherDetails` string built by the text stage: lower-cased location
address plus a space (when present), then the lower-cased type-specific
fields (job: company + space-joined skills; service: `provider || ''`;
product: `brand || ''`). -/
def otherDetails (o : Offer) : String :=
  (match o.location with
   | some loc => jsToLower loc.address ++ " "
   | none => "") ++
  (match o.details with
   | .job _ company _ skills .. =>
     jsToLower (company ++ " " ++ String.intercalate " " skills)
   | .service _ provider .. => jsToLower (provider.getD "")
   | .product _ brand .. => jsToLower (brand.getD ""))

/-- The per-offer predicate of the text stage, for an already
lower-cased query. -/
def offerMatchesQuery (lowercasedQuery : String) (o : Offer) : Bool :=
  strIncludes (jsToLower (getOfferTitle o)) lowercasedQuery ||
    strIncludes (jsToLower o.summary) lowercasedQuery ||
    strIncludes (otherDetails o) lowercasedQuery

/-- Type stage: `if (activeFilter !== 'all') filter(offer.type === activeFilter)`;
`none` models `'all'`. -/
def typeStage (activeFilter : Option OfferType) (l : List Offer) : List Offer :=
  match activeFilter with
  | none => l
  | some t => l.filter (fun o => o.type == t)

open Classical in
/-- Proximity stage: `if (filterCenterPoint) filter(...)`: drop offers with
no location, keep iff `getDistance ≤ 50` km. -/
noncomputable def proximityStage (filterCenterPoint : Option LatLng)
    (l : List Offer) : List Offer :=
  match filterCenterPoint with
  | none => l
  | some c =>
    l.filter (fun o =>
      match o.location with
      | none => false
      | some loc => decide (getDistance c.lat c.lng loc.lat loc.lng ≤ 50))

/-- Text stage: `if (searchQuery.trim() !== '')`, filter by
`offerMatchesQuery` on `searchQuery.toLowerCase()` (the untrimmed query). -/
def textStage (searchQuery : String) (l : List Offer) : List Offer :=
  if jsTrim searchQuery ≠ "" then l.filter (offerMatchesQuery (jsToLower searchQuery))
  else l

/-- The full `filteredOffers` pipeline: expiry, type, proximity, text. -/
noncomputable def filteredOffers (today : Int) (activeFilter : Option OfferType)
    (filterCenterPoint : Option LatLng) (searchQuery : String)
    (offers : List Offer) : List Offer :=
  textStage searchQuery
    (proximityStage filterCenterPoint
      (typeStage activeFilter
        (expiryStage today offers)))

/-! ### Folded keep-predicates (used to state and prove the filter laws) -/

/-- Keep-predicate of the type stage with the `'all'` branch folded in. -/
def typeKeep (activeFilter : Option OfferType) (o : Offer) : Bool :=
  match activeFilter with
  | none => true
  | some t => o.type == t

open Classical in
/-- Keep-predicate of the proximity stage with the `null`-center branch
folded in. -/
noncomputable def proximityKeep (filterCenterPoint : Option LatLng)
    (o : Offer) : Bool :=
  match filterCenterPoint with
  | none => true
  | some c =>
    match o.location with
    | none => false
    | some loc => decide (getDistance c.lat c.lng loc.lat loc.lng ≤ 50)

/-- Keep-predicate of the text stage with the empty-query branch folded in. -/
def textKeep (searchQuery : String) (o : Offer) : Bool :=
  if jsTrim searchQuery ≠ "" then offerMatchesQuery (jsToLower searchQuery) o
  else true

/-! ### Two-tier TTL cache (geminiService.ts) -/

/-- The constant `CACHE_TTL = 5 * 60 * 1000` (5 minutes, in ms). -/
def CACHE_TTL : Int := 5 * 60 * 1000

/-- A cache entry `{ value, expiry }`. -/
structure CacheEntry (V : Type) where
  value : V
  expiry : Int

/-- The two tiers: the in-memory `Map` and `localStorage` (association
lists; only lookup semantics matter here). -/
structure CacheState (V : Type) where
  mem : List (String × CacheEntry V)
  durable : List (String × CacheEntry V)

/-- The `localStorage` key: `LOCAL_STORAGE_CACHE_` constant + key. -/
def lsKey (key : String) : String := "gemini_api_cache_" ++ key

/-- JS `Map.delete` / `localStorage.removeItem`. -/
def mapDelete {V : Type} (k : String) (m : List (String × V)) :
    List (String × V) :=
  m.filter (fun p => p.1 != k)

/-- JS `Map.set` / `localStorage.setItem` (replace any previous binding). -/
def mapSet {V : Type} (k : String) (v : V) (m : List (String × V)) :
    List (String × V) :=
  (k, v) :: mapDelete k m

/-- The `localStorage` half of `getFromCache`: on an unexpired durable hit,
promote the entry into the in-memory tier and return it; on an expired
entry, remove it and miss. -/
def getFromCacheLS {V : Type} (now : Int) (key : String) (st : CacheState V) :
    Option V × CacheState V :=
  match st.durable.lookup (lsKey key) with
  | some localEntry =>
    if localEntry.expiry > now then
      (some localEntry.value,
        { st with mem := mapSet key ⟨localEntry.value, localEntry.expiry⟩ st.mem })
    else
      (none, { st with durable := mapDelete (lsKey key) st.durable })
  | none => (none, st)

/-- The `getFromCache` function: in-memory tier first (deleting an expired entry),
then the durable tier. `now` models `Date.now()`. -/
def getFromCache {V : Type} (now : Int) (key : String) (st : CacheState V) :
    Option V × CacheState V :=
  match st.mem.lookup key with
  | some entry =>
    if entry.expiry > now then (some entry.value, st)
    else getFromCacheLS now key { st with mem := mapDelete key st.mem }
  | none => getFromCacheLS now key st

/-- The `setInCache` function: write `{value, expiry = now + CACHE_TTL}` into both tiers;
a durable-tier write failure (`durableWriteFails`) is caught and only skips
the durable write. -/
def setInCache {V : Type} (now : Int) (key : String) (value : V)
    (durableWriteFails : Bool) (st : CacheState V) : CacheState V :=
  let expiry := now + CACHE_TTL
  let st' := { st with mem := mapSet key ⟨value, expiry⟩ st.mem }
  if durableWriteFails then st'
  else { st' with durable := mapSet (lsKey key) ⟨value, expiry⟩ st'.durable }

/-! ### Service wrappers (geminiService.ts)

Each wrapper takes the parsed external response as an explicit argument
(`.error` models a thrown request error or an unparsable body) and
additionally returns whether the external service was called. -/

/-- JS truthiness of a `string | null` (the empty string is falsy). -/
def jsTruthyStr : Option String → Bool
  | none => false
  | some s => s ≠ ""

/-- Cache key of `reverseGeocode` given the formatted coordinate pair. -/
def rgKey (coordsKey : String) : String := "reverse-geocode:" ++ coordsKey

/-- The `reverseGeocode` wrapper. Here `coordsKey` stands for the formatted
`lat.toFixed(2) + "," + lng.toFixed(2)` string (float formatting is not
modelled); `svc` is the `locationName` field of the parsed response.
Returns `(result, state, calledService)`. -/
def reverseGeocode (now : Int) (coordsKey : String)
    (svc : Except Unit (Option String)) (st : CacheState String) :
    Option String × CacheState String × Bool :=
  let cacheKey := rgKey coordsKey
  let g := getFromCache now cacheKey st
  if jsTruthyStr g.1 then (g.1, g.2, false)
  else
    match svc with
    | .ok nameField =>
      -- const locationName = parsed.locationName || null;
      let locationName :=
        match nameField with
        | some s => if s = "" then none else some s
        | none => none
      match locationName with
      | some nm => (some nm, setInCache now cacheKey nm false g.2, true)
      | none => (none, g.2, true)
    | .error _ => (none, g.2, true)

/-- The `getLocationSuggestions` wrapper: below 3 trimmed characters, return `[]` at
once; otherwise cache-first, and on a service success cache
`parsed.suggestions || []`. Returns `(result, state, calledService)`. -/
def getLocationSuggestions (now : Int) (query : String)
    (svc : Except Unit (Option (List String)))
    (st : CacheState (List String)) :
    List String × CacheState (List String) × Bool :=
  if (jsTrim query).length < 3 then ([], st, false)
  else
    let cacheKey := "suggestions:" ++ jsToLower query
    let g := getFromCache now cacheKey st
    match g.1 with
    | some cached => (cached, g.2, false)
    | none =>
      match svc with
      | .ok payload =>
        let suggestions := payload.getD []
        (suggestions, setInCache now cacheKey suggestions false g.2, true)
      | .error _ => ([], g.2, true)

/-- The parsed body of a geocoding response; a field is `some` exactly when
it is present with `typeof ... === 'number'`. -/
structure GeoResponse where
  lat : Option ℝ
  lng : Option ℝ

/-- Cache key of `geocodeLocation`. -/
def gcKey (address : String) : String := "geocode:" ++ jsToLower address

/-- The `geocodeLocation` wrapper: empty trimmed address short-circuits to `null`;
otherwise cache-first; cache and return only a response with numeric
`lat` and `lng`. Returns `(result, state, calledService)`. -/
def geocodeLocation (now : Int) (address : String)
    (svc : Except Unit GeoResponse) (st : CacheState LatLng) :
    Option LatLng × CacheState LatLng × Bool :=
  if jsTrim address = "" then (none, st, false)
  else
    let cacheKey := gcKey address
    let g := getFromCache now cacheKey st
    match g.1 with
    | some cached => (some cached, g.2, false)
    | none =>
      match svc with
      | .ok parsed =>
        match parsed.lat, parsed.lng with
        | some la, some ln =>
          (some ⟨la, ln⟩, setInCache now cacheKey ⟨la, ln⟩ false g.2, true)
        | _, _ => (none, g.2, true)
      | .error _ => (none, g.2, true)

/-! ### Concrete sample data (used in witness instantiations) -/

/-- A concrete offer that expired on 2020-01-05. -/
def sampleExpired : Offer :=
  { id := "offer-1", scannedAt := "2024-01-01", summary := "an old bike",
    location := none, additionalDetails := none,
    expiresAt := some "2020-01-05", applicantCount := 0,
    details := .product "Old Bike" (some "BikeCo") "100" none none none }

/-- A concrete offer whose `expiresAt` year (275761) lies beyond the
representable JS Date range. -/
def sampleFarFuture : Offer :=
  { id := "offer-4", scannedAt := "2024-01-01", summary := "a far-future offer",
    location := none, additionalDetails := none,
    expiresAt := some "275761-01-01", applicantCount := 0,
    details := .product "Time Capsule" none "10" none none none }

/-- A concrete job offer whose company matches the query `acme`. -/
def sampleJob : Offer :=
  { id := "offer-2", scannedAt := "2024-01-01", summary := "an engineering role",
    location := none, additionalDetails := none, expiresAt := none,
    applicantCount := 0,
    details := .job "Engineer" "Acme Corp" [] ["lean"] none none none none }

/-- A concrete product offer with no field matching the query `acme`. -/
def sampleProduct : Offer :=
  { id := "offer-3", scannedAt := "2024-01-01", summary := "a used phone",
    location := none, additionalDetails := none, expiresAt := none,
    applicantCount := 0,
    details := .product "Phone" (some "BrandX") "50" none none none }

/-! ## Helper lemmas -/

theorem typeStage_eq_filter (af : Option OfferType) (l : List Offer) :
    typeStage af l = l.filter (typeKeep af) := by
  cases af with
  | none => exact (List.filter_eq_self.mpr (fun a _ => rfl)).symm
  | some t => rfl

theorem proximityStage_eq_filter (cp : Option LatLng) (l : List Offer) :
    proximityStage cp l = l.filter (proximityKeep cp) := by
  cases cp with
  | none => exact (List.filter_eq_self.mpr (fun a _ => rfl)).symm
  | some c => rfl

theorem textStage_eq_filter (q : String) (l : List Offer) :
    textStage q l = l.filter (textKeep q) := by
  by_cases h : jsTrim q = ""
  · have hn : ¬(jsTrim q ≠ "") := by simpa using h
    rw [textStage, if_neg hn]
    refine (List.filter_eq_self.mpr fun a _ => ?_).symm
    simp [textKeep, h]
  · rw [textStage, if_pos h]
    exact List.filter_congr fun a _ => by simp [textKeep, h]

theorem filteredOffers_eq_filter (today : Int) (af : Option OfferType)
    (cp : Option LatLng) (q : String) (offers : List Offer) :
    filteredOffers today af cp q offers =
      ((((offers.filter (expiryKeep today)).filter (typeKeep af)).filter
        (proximityKeep cp)).filter (textKeep q)) := by
  simp only [filteredOffers, expiryStage, typeStage_eq_filter,
    proximityStage_eq_filter, textStage_eq_filter]

theorem mem_filteredOffers (today : Int) (af : Option OfferType)
    (cp : Option LatLng) (q : String) (offers : List Offer) (o : Offer) :
    o ∈ filteredOffers today af cp q offers ↔
      o ∈ offers ∧ expiryKeep today o = true ∧ typeKeep af o = true ∧
        proximityKeep cp o = true ∧ textKeep q o = true := by
  simp only [filteredOffers_eq_filter, List.mem_filter]
  tauto

/-! ## Claims about `getDistance` -/

theorem haversineA_self (lat lng : ℝ) : haversineA lat lng lat lng = 0 := by
  simp [haversineA]

theorem haversineA_symm (lat1 lon1 lat2 lon2 : ℝ) :
    haversineA lat2 lon2 lat1 lon1 = haversineA lat1 lon1 lat2 lon2 := by
  unfold haversineA
  rw [show (lat1 - lat2) * (Real.pi / 180) / 2 =
      -((lat2 - lat1) * (Real.pi / 180) / 2) by ring,
    show (lon1 - lon2) * (Real.pi / 180) / 2 =
      -((lon2 - lon1) * (Real.pi / 180) / 2) by ring,
    Real.sin_neg, Real.sin_neg]
  ring

theorem jsAtan2_zero_one : jsAtan2 0 1 = 0 := by
  rw [jsAtan2, if_pos one_pos]
  simp

/-- C7: the haversine distance between identical points is 0, and the
distance is symmetric in its two points. -/
theorem c7_distance_zero_and_symm :
    (∀ lat lng : ℝ, getDistance lat lng lat lng = 0) ∧
      (∀ lat1 lon1 lat2 lon2 : ℝ,
        getDistance lat1 lon1 lat2 lon2 = getDistance lat2 lon2 lat1 lon1) := by
  constructor
  · intro lat lng
    rw [getDistance, haversineA_self]
    rw [show (1 : ℝ) - 0 = 1 by ring, Real.sqrt_zero, Real.sqrt_one,
      jsAtan2_zero_one]
    ring
  · intro lat1 lon1 lat2 lon2
    rw [getDistance, getDistance, haversineA_symm]

/-! ## Claims about the filter pipeline -/

/-- C5: the pipeline applies the four stages (expiry, then type, then
proximity, then text) and its result is a subsequence of the input list:
kept offers appear in their original relative order, with no re-sorting. -/
theorem c5_pipeline_sublist :
    ∀ (today : Int) (af : Option OfferType) (cp : Option LatLng) (q : String)
      (offers : List Offer),
      filteredOffers today af cp q offers =
        textStage q (proximityStage cp (typeStage af (expiryStage today offers))) ∧
      List.Sublist (filteredOffers today af cp q offers) offers := by
  intro today af cp q offers
  refine ⟨rfl, ?_⟩
  rw [filteredOffers_eq_filter]
  exact (List.filter_sublist _).trans ((List.filter_sublist _).trans
    ((List.filter_sublist _).trans (List.filter_sublist _)))

/-- C3: with a center point set, the proximity stage keeps an offer iff it
has a location whose haversine distance from the center is at most 50 km
(in particular it drops every offer without a location); with no center
point it drops nothing. -/
theorem c3_proximity_stage :
    (∀ (c : LatLng) (offers : List Offer) (o : Offer),
      o ∈ proximityStage (some c) offers ↔
        o ∈ offers ∧ ∃ loc, o.location = some loc ∧
          getDistance c.lat c.lng loc.lat loc.lng ≤ 50) ∧
      (∀ offers : List Offer, proximityStage none offers = offers) := by
  constructor
  · intro c offers o
    show o ∈ offers.filter _ ↔ _
    rw [List.mem_filter]
    refine and_congr_right fun _ => ?_
    cases h : o.location with
    | none => simp [h]
    | some loc => simp [h]
  · intro offers
    rfl

/-- C6: the full pipeline is idempotent for fixed parameters. -/
theorem c6_filter_idempotent :
    ∀ (today : Int) (af : Option OfferType) (cp : Option LatLng) (q : String)
      (offers : List Offer),
      filteredOffers today af cp q (filteredOffers today af cp q offers) =
        filteredOffers today af cp q offers := by
  intro today af cp q offers
  rw [filteredOffers_eq_filter today af cp q (filteredOffers today af cp q offers)]
  rw [List.filter_eq_self.mpr
    (fun a ha => ((mem_filteredOffers today af cp q offers a).mp ha).2.1)]
  rw [List.filter_eq_self.mpr
    (fun a ha => ((mem_filteredOffers today af cp q offers a).mp ha).2.2.1)]
  rw [List.filter_eq_self.mpr
    (fun a ha => ((mem_filteredOffers today af cp q offers a).mp ha).2.2.2.1)]
  rw [List.filter_eq_self.mpr
    (fun a ha => ((mem_filteredOffers today af cp q offers a).mp ha).2.2.2.2)]

theorem expiryKeep_eq_false_iff (today : Int) (o : Offer) :
    expiryKeep today o = false ↔
      ∃ s p0 p1 p2 year m1 day,
        o.expiresAt = some s ∧ jsSplit s = [p0, p1, p2] ∧
        jsParseInt10 p0 = some year ∧ jsParseInt10 p1 = some m1 ∧
        jsParseInt10 p2 = some day ∧
        (jsMakeDay year (m1 - 1) day < today ∨
          jsDateInRange (jsMakeDay year (m1 - 1) day) = false) := by
  cases hx : o.expiresAt with
  | none => simp [expiryKeep, hx]
  | some s =>
    by_cases hs : s = ""
    · subst hs
      refine iff_of_false (by simp [expiryKeep, hx]) ?_
      rintro ⟨s', p0, p1, p2, y, m, d, hxx, hsp, -⟩
      injection hxx with hxx
      subst hxx
      rw [show (jsSplit "") = [""] from rfl] at hsp
      simp at hsp
    · simp only [expiryKeep, hx, if_neg hs]
      rcases hsp : jsSplit s with _ | ⟨p0, _ | ⟨p1, _ | ⟨p2, _ | ⟨p3, rest⟩⟩⟩⟩
      · simp [hsp]
      · simp [hsp]
      · simp [hsp]
      · cases h0 : jsParseInt10 p0 with
        | none => simp [hsp, h0]
        | some year =>
          cases h1 : jsParseInt10 p1 with
          | none => simp [hsp, h0, h1]
          | some m1 =>
            cases h2 : jsParseInt10 p2 with
            | none => simp [hsp, h0, h1, h2]
            | some day =>
              constructor
              · intro h
                refine ⟨s, p0, p1, p2, year, m1, day, rfl, hsp, h0, h1, h2, ?_⟩
                have h' : (jsDateInRange (jsMakeDay year (m1 - 1) day) &&
                    decide (jsMakeDay year (m1 - 1) day ≥ today)) = false := by
                  simpa [h0, h1, h2] using h
                rcases Bool.and_eq_false_iff.mp h' with h'' | h''
                · exact Or.inr h''
                · exact Or.inl (lt_of_not_ge (of_decide_eq_false h''))
              · rintro ⟨s1, q0, q1, q2, y, m, d, hss, hsp2, hq0, hq1, hq2, hlt⟩
                injection hss with hss
                subst hss
                rw [hsp] at hsp2
                simp only [List.cons.injEq, and_true] at hsp2
                obtain ⟨rfl, rfl, rfl⟩ := hsp2
                simp only [h0] at hq0
                injection hq0 with e0
                subst e0
                simp only [h1] at hq1
                injection hq1 with e1
                subst e1
                simp only [h2] at hq2
                injection hq2 with e2
                subst e2
                rcases hlt with hlt | hlt
                · simp [h0, h1, h2, not_le.mpr hlt]
                · simp [h0, h1, h2, hlt]
      · simp [hsp]

/-- Counterexample to C1 as stated: the offer expiring `275761-01-01` has a
present, 3-part, numeric `expiresAt` denoting a calendar day far *after*
`today` = 2024-01-01, yet the expiry stage removes it (the year lies beyond
the representable JS Date range, so `new Date(...)` is invalid and the
`expiryDate >= today` comparison is false). -/
theorem c1_expiry_stage_counterexample :
    sampleFarFuture ∉ expiryStage 19723 [sampleFarFuture] ∧
      ¬(∃ s p0 p1 p2 year m1 day,
          sampleFarFuture.expiresAt = some s ∧ jsSplit s = [p0, p1, p2] ∧
          jsParseInt10 p0 = some year ∧ jsParseInt10 p1 = some m1 ∧
          jsParseInt10 p2 = some day ∧ jsMakeDay year (m1 - 1) day < 19723) := by
  constructor
  · have hk : expiryKeep 19723 sampleFarFuture = false := by decide
    simp [expiryStage, hk]
  · rintro ⟨s, p0, p1, p2, y, m, d, hx, hsp, h0, h1, h2, hlt⟩
    rw [show sampleFarFuture.expiresAt = some "275761-01-01" from rfl] at hx
    injection hx with hx
    subst hx
    rw [show jsSplit "275761-01-01" = ["275761", "01", "01"] from by decide] at hsp
    simp only [List.cons.injEq, and_true] at hsp
    obtain ⟨rfl, rfl, rfl⟩ := hsp
    rw [show jsParseInt10 "275761" = some 275761 from by decide] at h0
    injection h0 with h0
    subst h0
    rw [show jsParseInt10 "01" = some 1 from by decide] at h1 h2
    injection h1 with h1
    subst h1
    injection h2 with h2
    subst h2
    rw [show jsMakeDay 275761 (1 - 1) 1 = (100000110 : Int) from by decide] at hlt
    exact absurd hlt (by decide)

/-- C1 (amended): given membership in the input, the expiry stage removes an
offer iff its `expiresAt` is present, splits on `-` into three
numerically-parsing parts, and denotes either a calendar day strictly before
`today` or a day outside the representable JS Date range (an invalid Date);
offers with an absent, non-3-part or non-numeric `expiresAt` are kept. -/
theorem c1_expiry_stage (today : Int) (offers : List Offer) (o : Offer)
    (ho : o ∈ offers) :
    o ∉ expiryStage today offers ↔
      ∃ s p0 p1 p2 year m1 day,
        o.expiresAt = some s ∧ jsSplit s = [p0, p1, p2] ∧
        jsParseInt10 p0 = some year ∧ jsParseInt10 p1 = some m1 ∧
        jsParseInt10 p2 = some day ∧
        (jsMakeDay year (m1 - 1) day < today ∨
          jsDateInRange (jsMakeDay year (m1 - 1) day) = false) := by
  rw [← expiryKeep_eq_false_iff]
  simp [expiryStage, List.mem_filter, ho]

/-- Witness for C1 at a concrete expired offer and `today` = 2024-01-01. -/
theorem c1_expiry_stage_witness :
    sampleExpired ∈ [sampleExpired] ∧
      (sampleExpired ∉ expiryStage 19723 [sampleExpired] ↔
        ∃ s p0 p1 p2 year m1 day,
          sampleExpired.expiresAt = some s ∧ jsSplit s = [p0, p1, p2] ∧
          jsParseInt10 p0 = some year ∧ jsParseInt10 p1 = some m1 ∧
          jsParseInt10 p2 = some day ∧
          (jsMakeDay year (m1 - 1) day < 19723 ∨
            jsDateInRange (jsMakeDay year (m1 - 1) day) = false)) :=
  ⟨List.mem_singleton.mpr rfl,
    c1_expiry_stage 19723 [sampleExpired] sampleExpired (List.mem_singleton.mpr rfl)⟩

/-- C4: with a query whose trimmed form is non-empty, the text stage keeps
exactly the offers whose lower-cased title, summary, or combined
address-and-type-specific details contain the lower-cased query as a
substring; a blank query keeps every offer. -/
theorem c4_text_stage :
    (∀ (q : String) (offers : List Offer) (o : Offer), jsTrim q ≠ "" →
      (o ∈ textStage q offers ↔ o ∈ offers ∧
        ((jsToLower q).toList <:+: (jsToLower (getOfferTitle o)).toList ∨
         (jsToLower q).toList <:+: (jsToLower o.summary).toList ∨
         (jsToLower q).toList <:+: (otherDetails o).toList))) ∧
      (∀ (q : String) (offers : List Offer), jsTrim q = "" →
        textStage q offers = offers) := by
  constructor
  · intro q offers o h
    rw [textStage, if_pos h, List.mem_filter]
    refine and_congr_right fun _ => ?_
    simp only [offerMatchesQuery, strIncludes, Bool.or_eq_true, decide_eq_true_eq]
    tauto
  · intro q offers h
    rw [textStage, if_neg (by simpa using h)]

/-- Witness for C4: the query `acme` matches the sample job (through its
company) inside a two-offer list, and a whitespace query filters nothing. -/
theorem c4_text_stage_witness :
    (jsTrim "acme" ≠ "" ∧
      (sampleJob ∈ textStage "acme" [sampleJob, sampleProduct] ↔
        sampleJob ∈ [sampleJob, sampleProduct] ∧
          ((jsToLower "acme").toList <:+: (jsToLower (getOfferTitle sampleJob)).toList ∨
           (jsToLower "acme").toList <:+: (jsToLower sampleJob.summary).toList ∨
           (jsToLower "acme").toList <:+: (otherDetails sampleJob).toList))) ∧
      (jsTrim " " = "" ∧ textStage " " [sampleProduct] = [sampleProduct]) :=
  ⟨⟨by decide, c4_text_stage.1 "acme" [sampleJob, sampleProduct] sampleJob (by decide)⟩,
   ⟨by decide, c4_text_stage.2 " " [sampleProduct] (by decide)⟩⟩

/-! ## Cache lemmas and claims -/

theorem lookup_mapDelete_self {V : Type} (k : String) (m : List (String × V)) :
    (mapDelete k m).lookup k = none := by
  induction m with
  | nil => rfl
  | cons p m ih =>
    obtain ⟨a, b⟩ := p
    rw [mapDelete, List.filter_cons]
    by_cases h : a = k
    · subst h
      simp only [bne_self_eq_false, if_false]
      exact ih
    · have hne : ((a, b).1 != k) = true := by simp [bne, h]
      rw [if_pos hne, List.lookup_cons]
      have hba : (k == a) = false := beq_eq_false_iff_ne.mpr fun hh => h hh.symm
      rw [hba]
      exact ih

theorem lookup_mapSet_self {V : Type} (k : String) (v : V)
    (m : List (String × V)) : (mapSet k v m).lookup k = some v := by
  simp [mapSet]

/-- C2: a `get` within the TTL after a `set` returns the value; once the
TTL has elapsed it returns `none` and afterwards the key is bound in
neither tier; an unexpired durable-tier hit (when the in-memory tier has
no fresh entry) is returned and promoted into the in-memory tier. -/
theorem c2_cache_get_set :
    (∀ (V : Type) (st : CacheState V) (k : String) (v : V) (t0 t1 : Int),
        t1 - t0 < CACHE_TTL →
        (getFromCache t1 k (setInCache t0 k v false st)).1 = some v) ∧
    (∀ (V : Type) (st : CacheState V) (k : String) (v : V) (t0 t1 : Int),
        CACHE_TTL ≤ t1 - t0 →
        (getFromCache t1 k (setInCache t0 k v false st)).1 = none ∧
        (getFromCache t1 k (setInCache t0 k v false st)).2.mem.lookup k = none ∧
        (getFromCache t1 k (setInCache t0 k v false st)).2.durable.lookup
          (lsKey k) = none) ∧
    (∀ (V : Type) (st : CacheState V) (k : String) (e : CacheEntry V) (t : Int),
        (∀ e', st.mem.lookup k = some e' → ¬(e'.expiry > t)) →
        st.durable.lookup (lsKey k) = some e → e.expiry > t →
        (getFromCache t k st).1 = some e.value ∧
        (getFromCache t k st).2.mem.lookup k = some ⟨e.value, e.expiry⟩) := by
  refine ⟨?_, ?_, ?_⟩
  · intro V st k v t0 t1 h
    have hexp : t0 + CACHE_TTL > t1 := by omega
    simp [setInCache, getFromCache, lookup_mapSet_self, hexp]
  · intro V st k v t0 t1 h
    have hexp : ¬(t0 + CACHE_TTL > t1) := by omega
    simp [setInCache, getFromCache, getFromCacheLS, lookup_mapSet_self, hexp,
      lookup_mapDelete_self]
  · intro V st k e t hm hd he
    cases hmem : st.mem.lookup k with
    | none =>
      simp [getFromCache, getFromCacheLS, hmem, hd, he, lookup_mapSet_self]
    | some e' =>
      have : ¬(e'.expiry > t) := hm e' hmem
      simp [getFromCache, getFromCacheLS, hmem, this, hd, he,
        lookup_mapSet_self]

/-- Witness for C2 at concrete states, keys and times. -/
theorem c2_cache_get_set_witness :
    ((1 : Int) - 0 < CACHE_TTL ∧
      (getFromCache 1 "k" (setInCache 0 "k" "v" false ⟨[], []⟩)).1 = some "v") ∧
    (CACHE_TTL ≤ (300000 : Int) - 0 ∧
      (getFromCache 300000 "k" (setInCache 0 "k" "v" false ⟨[], []⟩)).1 = none) ∧
    ((getFromCache 0 "k"
        ⟨[], [(lsKey "k", ⟨"w", 5⟩)]⟩ : Option String × CacheState String).1 =
      some "w") :=
  ⟨⟨by decide, c2_cache_get_set.1 String ⟨[], []⟩ "k" "v" 0 1 (by decide)⟩,
   ⟨by decide,
    (c2_cache_get_set.2.1 String ⟨[], []⟩ "k" "v" 0 300000 (by decide)).1⟩,
   (c2_cache_get_set.2.2 String ⟨[], [(lsKey "k", ⟨"w", 5⟩)]⟩ "k" ⟨"w", 5⟩ 0
      (fun e' h => by simp at h) rfl (by decide)).1⟩

/-- C8: when the durable write fails, `set` still records the entry
in-memory (the durable tier is untouched, the failure is swallowed) and a
`get` within the TTL still returns the value. -/
theorem c8_durable_write_failure :
    ∀ (V : Type) (st : CacheState V) (k : String) (v : V) (t0 t1 : Int),
      t1 - t0 < CACHE_TTL →
      (setInCache t0 k v true st).durable = st.durable ∧
      (getFromCache t1 k (setInCache t0 k v true st)).1 = some v := by
  intro V st k v t0 t1 h
  have hexp : t0 + CACHE_TTL > t1 := by omega
  exact ⟨rfl, by simp [setInCache, getFromCache, lookup_mapSet_self, hexp]⟩

/-- Witness for C8: a failed durable write at time 0, read back at time 1. -/
theorem c8_durable_write_failure_witness :
    (1 : Int) - 0 < CACHE_TTL ∧
      (setInCache 0 "k" "v" true (⟨[], []⟩ : CacheState String)).durable = [] ∧
      (getFromCache 1 "k" (setInCache 0 "k" "v" true ⟨[], []⟩)).1 = some "v" :=
  ⟨by decide, c8_durable_write_failure String ⟨[], []⟩ "k" "v" 0 1 (by decide)⟩

/-- C9: a query whose trimmed form has fewer than 3 characters makes
`getLocationSuggestions` return `[]` immediately: the cache state is
returned unchanged and the external service is not called. -/
theorem c9_short_query :
    ∀ (now : Int) (q : String) (svc : Except Unit (Option (List String)))
      (st : CacheState (List String)),
      (jsTrim q).length < 3 →
      getLocationSuggestions now q svc st = ([], st, false) := by
  intro now q svc st h
  rw [getLocationSuggestions, if_pos h]

/-- Witness for C9 at the spec's example query `ny`. -/
theorem c9_short_query_witness :
    (jsTrim "ny").length < 3 ∧
      getLocationSuggestions 0 "ny" (Except.error ()) ⟨[], []⟩ =
        ([], ⟨[], []⟩, false) :=
  ⟨by decide, c9_short_query 0 "ny" (Except.error ()) ⟨[], []⟩ (by decide)⟩

/-- A cache lookup is stable: looking up again in the state returned by
`getFromCache` gives the same result and state (expired entries were
already pruned, promoted entries are fresh hits). -/
theorem getFromCache_idem {V : Type} (now : Int) (k : String)
    (st : CacheState V) :
    getFromCache now k (getFromCache now k st).2 = getFromCache now k st := by
  cases hm : st.mem.lookup k with
  | some entry =>
    by_cases he : entry.expiry > now
    · simp [getFromCache, hm, he]
    · cases hd : st.durable.lookup (lsKey k) with
      | some le =>
        by_cases hle : le.expiry > now
        · simp [getFromCache, getFromCacheLS, hm, he, hd, hle,
            lookup_mapSet_self]
        · simp [getFromCache, getFromCacheLS, hm, he, hd, hle,
            lookup_mapDelete_self]
      | none =>
        simp [getFromCache, getFromCacheLS, hm, he, hd, lookup_mapDelete_self]
  | none =>
    cases hd : st.durable.lookup (lsKey k) with
    | some le =>
      by_cases hle : le.expiry > now
      · simp [getFromCache, getFromCacheLS, hm, hd, hle, lookup_mapSet_self]
      · simp [getFromCache, getFromCacheLS, hm, hd, hle,
          lookup_mapDelete_self]
    | none => simp [getFromCache, getFromCacheLS, hm, hd]

/-- C10: `reverseGeocode` and `geocodeLocation` never cache a failed
lookup: after a cache miss, an erroring, null/empty or non-numeric
response leaves the state exactly as the lookup left it (no entry is
written) and any later call with the same key calls the service again,
while a successful response is the only case that writes the entry. -/
theorem c10_no_caching_of_failures :
    (∀ (now : Int) (ck : String) (svc : Except Unit (Option String))
        (st : CacheState String),
        jsTruthyStr (getFromCache now (rgKey ck) st).1 = false →
        (svc = .error () ∨ svc = .ok none ∨ svc = .ok (some "")) →
        reverseGeocode now ck svc st =
          (none, (getFromCache now (rgKey ck) st).2, true) ∧
        (∀ svc', (reverseGeocode now ck svc'
          (getFromCache now (rgKey ck) st).2).2.2 = true)) ∧
    (∀ (now : Int) (ck nm : String) (st : CacheState String),
        jsTruthyStr (getFromCache now (rgKey ck) st).1 = false → nm ≠ "" →
        reverseGeocode now ck (.ok (some nm)) st =
          (some nm,
            setInCache now (rgKey ck) nm false (getFromCache now (rgKey ck) st).2,
            true)) ∧
    (∀ (now : Int) (addr : String) (svc : Except Unit GeoResponse)
        (st : CacheState LatLng),
        jsTrim addr ≠ "" →
        (getFromCache now (gcKey addr) st).1 = none →
        (svc = .error () ∨ ∃ r, svc = .ok r ∧ (r.lat = none ∨ r.lng = none)) →
        geocodeLocation now addr svc st =
          (none, (getFromCache now (gcKey addr) st).2, true) ∧
        (∀ svc', (geocodeLocation now addr svc'
          (getFromCache now (gcKey addr) st).2).2.2 = true)) ∧
    (∀ (now : Int) (addr : String) (la ln : ℝ) (st : CacheState LatLng),
        jsTrim addr ≠ "" →
        (getFromCache now (gcKey addr) st).1 = none →
        geocodeLocation now addr (.ok ⟨some la, some ln⟩) st =
          (some ⟨la, ln⟩,
            setInCache now (gcKey addr) ⟨la, ln⟩ false
              (getFromCache now (gcKey addr) st).2,
            true)) := by
  refine ⟨?_, ?_, ?_, ?_⟩
  · intro now ck svc st hmiss hfail
    constructor
    · rcases hfail with rfl | rfl | rfl
      · simp [reverseGeocode, hmiss]
      · simp [reverseGeocode, hmiss]
      · simp [reverseGeocode, hmiss]
    · intro svc'
      simp only [reverseGeocode, getFromCache_idem, hmiss, Bool.false_eq_true,
        if_false]
      cases svc' with
      | error e => rfl
      | ok nf =>
        cases nf with
        | none => rfl
        | some s =>
          by_cases hs : s = "" <;> simp [hs]
  · intro now ck nm st hmiss hne
    simp [reverseGeocode, hmiss, hne]
  · intro now addr svc st haddr hmiss hfail
    constructor
    · rcases hfail with rfl | ⟨r, rfl, hr⟩
      · simp [geocodeLocation, haddr, hmiss]
      · obtain ⟨rla, rln⟩ := r
        rcases hr with h | h
        · simp only at h
          subst h
          simp [geocodeLocation, haddr, hmiss]
        · simp only at h
          subst h
          cases rla <;> simp [geocodeLocation, haddr, hmiss]
    · intro svc'
      simp only [geocodeLocation, getFromCache_idem, hmiss, if_neg haddr]
      cases svc' with
      | error e => simp
      | ok r =>
        obtain ⟨rla, rln⟩ := r
        cases rla <;> cases rln <;> simp
  · intro now addr la ln st haddr hmiss
    simp [geocodeLocation, haddr, hmiss]

/-- Witness for C10 at an empty cache, concrete keys and responses. -/
theorem c10_no_caching_of_failures_witness :
    (reverseGeocode 0 "c" (.error ()) ⟨[], []⟩ =
        (none, (getFromCache 0 (rgKey "c") (⟨[], []⟩ : CacheState String)).2,
          true) ∧
      (reverseGeocode 0 "c" (.ok none)
        (getFromCache 0 (rgKey "c") (⟨[], []⟩ : CacheState String)).2).2.2 =
        true) ∧
    (reverseGeocode 0 "c" (.ok (some "Paris")) ⟨[], []⟩ =
      (some "Paris",
        setInCache 0 (rgKey "c") "Paris" false
          (getFromCache 0 (rgKey "c") (⟨[], []⟩ : CacheState String)).2,
        true)) ∧
    (geocodeLocation 0 "x" (.error ()) ⟨[], []⟩ =
        (none, (getFromCache 0 (gcKey "x") (⟨[], []⟩ : CacheState LatLng)).2,
          true) ∧
      (geocodeLocation 0 "x" (.error ())
        (getFromCache 0 (gcKey "x") (⟨[], []⟩ : CacheState LatLng)).2).2.2 =
        true) ∧
    (geocodeLocation 0 "x" (.ok ⟨some 1, some 2⟩) ⟨[], []⟩ =
      (some ⟨1, 2⟩,
        setInCache 0 (gcKey "x") ⟨1, 2⟩ false
          (getFromCache 0 (gcKey "x") (⟨[], []⟩ : CacheState LatLng)).2,
        true)) :=
  ⟨⟨(c10_no_caching_of_failures.1 0 "c" (.error ()) ⟨[], []⟩ rfl
      (Or.inl rfl)).1,
    (c10_no_caching_of_failures.1 0 "c" (.error ()) ⟨[], []⟩ rfl
      (Or.inl rfl)).2 (.ok none)⟩,
   c10_no_caching_of_failures.2.1 0 "c" "Paris" ⟨[], []⟩ rfl (by decide),
   ⟨(c10_no_caching_of_failures.2.2.1 0 "x" (.error ()) ⟨[], []⟩ (by decide)
      rfl (Or.inl rfl)).1,
    (c10_no_caching_of_failures.2.2.1 0 "x" (.error ()) ⟨[], []⟩ (by decide)
      rfl (Or.inl rfl)).2 (.error ())⟩,
   c10_no_caching_of_failures.2.2.2 0 "x" 1 2 ⟨[], []⟩ (by decide) rfl⟩

end OfferScanner
